import Mathlib

/-!
Shallow embedding of the `nr-kitap` classified-listings application
(`src/app.py`) and proofs about its record store, header migration,
kind normalization, unlock/photo-access gates, upload handling and
the admin photo-delete path check.

Modelling conventions:
* CSV rows are `List String`; a whole CSV file is `List (List String)`
  (first row the header); a store that may not exist on disk is
  `Option (List (List String))`.
* A record produced by `csv.DictReader` is an association list
  `List (String × String)`; `rget` is `r.get(c, "") or ""`.
* Python `str.strip` is modelled by `pyStrip`, `str.lower` by
  `pyLower`, `str.startswith` by `strStartsWith`, and
  `hmac.compare_digest` by string equality.
* Filesystem paths are lists of components below the root; `Path.resolve`
  (without symlinks) is `resolveComps`, `str(Path)` is `pathStr`.
-/

namespace NrKitap

/-- Embedding of Python `str.strip()`: drop whitespace from both ends.
Defined by structural recursion over the character list so that concrete
instances evaluate inside the kernel. -/
def pyStrip (s : String) : String :=
  String.mk
    (((s.toList.dropWhile Char.isWhitespace).reverse.dropWhile
        Char.isWhitespace).reverse)

/-- Embedding of Python `str.lower()`: lowercase every character. -/
def pyLower (s : String) : String :=
  String.mk (s.toList.map Char.toLower)

/-- Embedding of Python `str.startswith`: `strStartsWith pre s` holds when
`pre` is a prefix of `s`. -/
def strStartsWith (pre s : String) : Bool :=
  pre.toList.isPrefixOf s.toList

/-- Canonical CSV column set, from `_csv_columns` in `app.py`. -/
def csvColumns : List String :=
  ["id", "created_utc", "kind", "title", "price_tenge", "phone",
   "description", "photos", "password"]

/-- A record as handled by the app: an association list from column
name to string value, as produced by `csv.DictReader`. -/
abbrev Rec := List (String × String)

/-- Dictionary lookup with empty-string default, modelling the
`(r.get(c, "") or "")` idiom used throughout `app.py` (a missing key or a
`None` value both become `""`). -/
def rget (r : Rec) (c : String) : String :=
  match r.find? (fun p => p.1 == c) with
  | some p => p.2
  | none => ""

/-- Embedding of `_find_row`: first record whose trimmed `id` equals `sid`. -/
def findRow (rows : List Rec) (sid : String) : Option Rec :=
  rows.find? (fun r => pyStrip (rget r "id") == sid)

/-- Embedding of `_ensure_csv_header`. Input `none` models a store file
that does not exist; input `some rows` models the existing file content as
a list of CSV rows. The result is the file content after the call. -/
def ensureCsvHeader : Option (List (List String)) → List (List String)
  | none => [csvColumns]
  | some rows =>
    match rows with
    | [] => [csvColumns]
    | header :: body =>
      if header = csvColumns then header :: body
      else if "password" ∉ header then
        (header ++ ["password"]) :: body.map (fun r => r ++ [""])
      else header :: body

/-- Embedding of `_write_all_rows`: emits the header then, for each
record, the canonical columns in order with `(r.get(c, "") or "")`. -/
def writeAllRows (rs : List Rec) : List (List String) :=
  csvColumns :: rs.map (fun r => csvColumns.map (fun c => rget r c))

/-- Embedding of `_read_all_rows` on given file content: `csv.DictReader`
pairs the header with each row, and rows whose trimmed `id` is empty are
skipped. -/
def readAllRows (file : List (List String)) : List Rec :=
  match file with
  | [] => []
  | header :: body =>
    (body.map (fun row => header.zip row)).filter
      (fun r => pyStrip (rget r "id") != "")

/-- Projection of a record onto the canonical column set, as performed by
one `_write_all_rows` row followed by a `DictReader` read-back. -/
def projectRec (r : Rec) : Rec :=
  csvColumns.map (fun c => (c, rget r c))

/-- Embedding of the Python truthiness default `(s or default)` on strings. -/
def pyOr (s default : String) : String :=
  if s = "" then default else s

/-- Kind normalization of the public feed (`_load_submissions`, line 235):
`(row.get("kind") or "material").strip().lower()` with no enum check. -/
def publicKind (k : String) : String :=
  pyLower (pyStrip (pyOr k "material"))

/-- Kind normalization of the admin feed (`_admin_submissions`, lines
373-375): default `"sell"`, then clamp anything outside buy and sell to
`"sell"`. -/
def adminKind (k : String) : String :=
  let s := pyLower (pyStrip (pyOr k "sell"))
  if s = "buy" ∨ s = "sell" then s else "sell"

/-- Kind normalization of the thanks page (`thanks`, lines 284-286):
`found` tells whether `_find_row` located the record, `k` is the record
field when found. -/
def thanksKind (found : Bool) (k : String) : String :=
  let s := pyLower (pyStrip (if found then pyOr k "sell" else "sell"))
  if s = "buy" ∨ s = "sell" then s else "sell"

/-- Embedding of `_is_admin`: fails closed when `ADMIN_KEY` is unset,
otherwise requires a nonempty session key equal to the admin key. -/
def isAdmin (adminKey sessionKey : String) : Bool :=
  if adminKey = "" then false
  else sessionKey != "" && sessionKey == adminKey

/-- Result of the `unlock` route, carrying the session unlock list after
the request. `success` covers both redirect-to-index paths (card without
password, and correct password). -/
inductive UnlockResult
  | notFound
  | success (unlockedCards : List String)
  | wrongPassword (unlockedCards : List String)
deriving DecidableEq, Repr

/-- Embedding of the `unlock` route (lines 298-319): trim the submitted
password, find the record, short-circuit when the stored password is
blank, otherwise compare and add the id to the session unlock list if
absent. -/
def unlockRoute (rows : List Rec) (sid password : String)
    (unlockedCards : List String) : UnlockResult :=
  let pw := pyStrip password
  match findRow rows sid with
  | none => .notFound
  | some r =>
    let expected := pyStrip (rget r "password")
    if expected = "" then .success unlockedCards
    else if pw != "" && pw == expected then
      .success (if sid ∈ unlockedCards then unlockedCards
                else unlockedCards ++ [sid])
    else .wrongPassword unlockedCards

/-- HTTP-level result of the uploads route. -/
inductive HttpResult
  | forbidden
  | notFound
  | file (sid filename : String)
deriving DecidableEq, Repr

/-- Embedding of `send_from_directory(UPLOADS_DIR / sid, filename)`:
serves the file when it exists in the listing's directory (whose regular
files are `dirFiles`), else 404. -/
def sendFromDirectory (dirFiles : List String) (sid filename : String) :
    HttpResult :=
  if filename ∈ dirFiles then .file sid filename else .notFound

/-- Embedding of the `uploads` route (lines 322-334): non-admin requests
for a record with a nonblank stored password are rejected with 403 unless
the id is in the session unlock list; every other case falls through to
`send_from_directory`. -/
def uploadsRoute (adminKey sessionKey : String) (rows : List Rec)
    (unlockedCards : List String) (dirFiles : List String)
    (sid filename : String) : HttpResult :=
  if !(isAdmin adminKey sessionKey) then
    match findRow rows sid with
    | none => sendFromDirectory dirFiles sid filename
    | some r =>
      if pyStrip (rget r "password") != "" then
        if sid ∈ unlockedCards then sendFromDirectory dirFiles sid filename
        else .forbidden
      else sendFromDirectory dirFiles sid filename
  else sendFromDirectory dirFiles sid filename

/-- Default value of the `MAX_FILES` environment knob (`app.py` line 44).
The constant is read into configuration but referenced nowhere else in
the program. -/
def MAX_FILES : Nat := 5

/-- Default value of the `MAX_TOTAL_MB` environment knob (line 45), used
as `MAX_CONTENT_LENGTH = MAX_TOTAL_MB * 1024 * 1024` (line 64). -/
def MAX_TOTAL_MB : Nat := 25

/-- Default value of the `MAX_FILE_MB` environment knob (line 46). Like
`MAX_FILES` it is read into configuration but referenced nowhere else. -/
def MAX_FILE_MB : Nat := 10

/-- An uploaded multipart file part: its client-supplied filename and its
size in bytes. -/
structure UploadFile where
  filename : String
  size : Nat
deriving DecidableEq, Repr

/-- Embedding of the filter `[f for f in files if f and f.filename]` in
`admin_upload`. -/
def validFiles (files : List UploadFile) : List UploadFile :=
  files.filter (fun f => f.filename != "")

/-- Outcome of an upload submission, framework gate included. -/
inductive UploadOutcome
  | rejectedTooLarge
  | noFiles
  | saved (n : Nat)
deriving DecidableEq, Repr

/-- Embedding of the admin upload pipeline: the framework rejects the
whole request with 413 when its content length exceeds
`MAX_CONTENT_LENGTH` (before the handler runs), and otherwise the
`admin_upload` handler (lines 551-580) saves every file with a nonempty
filename — it consults no other cap. -/
def processAdminUpload (contentLength : Nat) (files : List UploadFile) :
    UploadOutcome :=
  if contentLength > MAX_TOTAL_MB * 1024 * 1024 then .rejectedTooLarge
  else
    let fs := validFiles files
    if fs.isEmpty then .noFiles
    else .saved fs.length

/-- Resolution of one path component, as `Path.resolve` does on a
symlink-free tree: `.` is dropped, `..` removes the last component (and is
a no-op at the root), anything else is appended. -/
def resolveStep (acc : List String) (c : String) : List String :=
  if c = "." then acc
  else if c = ".." then acc.dropLast
  else acc ++ [c]

/-- Embedding of `Path.resolve` on an absolute path given by its
components below the root. -/
def resolveComps (cs : List String) : List String :=
  cs.foldl resolveStep []

/-- Embedding of `str(p)` for an absolute `Path` with components `cs`. -/
def pathStr (cs : List String) : String :=
  "/" ++ String.intercalate "/" cs

/-- The path test of `admin_photo_delete` (lines 534-537):
`str(p).startswith(str(base))` on the resolved target and base. -/
def photoDeletePathOk (uploadsDir : List String) (sid : String)
    (fileComps : List String) : Bool :=
  let p := resolveComps (uploadsDir ++ [sid] ++ fileComps)
  let base := resolveComps (uploadsDir ++ [sid])
  strStartsWith (pathStr base) (pathStr p)

/-- A resolved path is strictly inside a directory when the directory's
component list is a proper prefix of the path's component list. -/
def strictlyInside (base p : List String) : Bool :=
  base.isPrefixOf p && base != p

/-- Filesystem outcome of `admin_photo_delete` (lines 531-548):
`existingFiles` is the set of resolved paths of regular files on disk. -/
inductive PhotoDeleteOutcome
  | badRequest
  | deleted (path : List String)
  | noop
deriving DecidableEq, Repr

/-- Embedding of the filesystem part of `admin_photo_delete`: the
string-prefix check, then unlink when the resolved target is an existing
regular file. -/
def adminPhotoDelete (uploadsDir : List String) (sid : String)
    (fileComps : List String) (existingFiles : List (List String)) :
    PhotoDeleteOutcome :=
  let p := resolveComps (uploadsDir ++ [sid] ++ fileComps)
  let base := resolveComps (uploadsDir ++ [sid])
  if !strStartsWith (pathStr base) (pathStr p) then .badRequest
  else if p ∈ existingFiles then .deleted p
  else .noop

/-- A header differs from the expected column set only by missing the
newest column or columns when it is a proper prefix of `csvColumns`. -/
def missingOnlyNewest (header : List String) : Bool :=
  header.isPrefixOf csvColumns && header != csvColumns

/-! Helper lemmas about the record-store embedding. -/

/-- Zipping a list with its own image is mapping to pairs. -/
theorem zip_self_map (l : List String) (g : String → String) :
    l.zip (l.map g) = l.map (fun a => (a, g a)) := by
  have h := List.zip_map' (fun a => a) g l
  simpa using h

/-- Looking up a key present in `l` inside the pairing of `l` with values. -/
theorem find?_map_pair (l : List String) (v : String → String) (c : String)
    (hc : c ∈ l) :
    (l.map (fun a => (a, v a))).find? (fun p => p.1 == c) = some (c, v c) := by
  induction l with
  | nil => cases hc
  | cons x xs ih =>
    rcases eq_or_ne x c with hx | hx
    · subst hx
      rw [List.map_cons, List.find?_cons_of_pos]
      simp
    · have hc2 : c ∈ xs := by
        rcases List.mem_cons.mp hc with h | h
        · exact absurd h.symm hx
        · exact h
      rw [List.map_cons, List.find?_cons_of_neg _ (by simpa using hx)]
      exact ih hc2

/-- Looking up a key absent from `l` inside the pairing of `l` with values. -/
theorem find?_map_pair_none (l : List String) (v : String → String) (k : String)
    (hk : k ∉ l) :
    (l.map (fun a => (a, v a))).find? (fun p => p.1 == k) = none := by
  rw [List.find?_eq_none]
  intro x hx
  rcases List.mem_map.mp hx with ⟨a, ha, rfl⟩
  simp only [beq_iff_eq]
  exact fun h => hk (h ▸ ha)

/-- Field access on the canonical projection agrees with field access on
the original record, for canonical columns. -/
theorem rget_projectRec (r : Rec) (c : String) (hc : c ∈ csvColumns) :
    rget (projectRec r) c = rget r c := by
  have h : (projectRec r).find? (fun p => p.1 == c) = some (c, rget r c) := by
    have h0 := find?_map_pair csvColumns (fun a => rget r a) c hc
    simpa [projectRec] using h0
  unfold rget
  rw [h]
  rfl

/-- The keys of the canonical projection are exactly the canonical columns. -/
theorem keys_projectRec (r : Rec) : (projectRec r).map Prod.fst = csvColumns := by
  simp [projectRec, Function.comp_def]

/-- Full characterization of a store round trip: `readAllRows` after
`writeAllRows` keeps exactly the records with nonblank `id`, each replaced
by its canonical projection. -/
theorem readAll_writeAll_eq (rs : List Rec) :
    readAllRows (writeAllRows rs) =
      (rs.filter (fun r => pyStrip (rget r "id") != "")).map projectRec := by
  have hid : "id" ∈ csvColumns := by simp [csvColumns]
  have h1 : readAllRows (writeAllRows rs) =
      ((rs.map (fun r => csvColumns.map (fun c => rget r c))).map
        (fun row => csvColumns.zip row)).filter
          (fun r => pyStrip (rget r "id") != "") := rfl
  rw [h1, List.map_map]
  have h2 : ((fun row => csvColumns.zip row) ∘
      fun r : Rec => csvColumns.map (fun c => rget r c)) = projectRec := by
    funext r
    simp only [Function.comp_apply, zip_self_map]
    rfl
  rw [h2, List.filter_map]
  have h3 : ∀ r ∈ rs,
      ((fun r => pyStrip (rget r "id") != "") ∘ projectRec) r =
        (fun r : Rec => pyStrip (rget r "id") != "") r := by
    intro r _
    simp only [Function.comp_apply, rget_projectRec r "id" hid]
  rw [List.filter_congr h3]

/-- Membership of the value "password" is impossible in a header that is a
proper prefix of the canonical column set, since "password" is its last
column and occurs nowhere else. -/
theorem password_notin_proper_head (header : List String)
    (h : missingOnlyNewest header = true) : "password" ∉ header := by
  have h1 : header.isPrefixOf csvColumns = true ∧ (header != csvColumns) = true := by
    simpa [missingOnlyNewest] using h
  have hpre : header <+: csvColumns := List.isPrefixOf_iff_prefix.mp h1.1
  have hne : header ≠ csvColumns := by simpa using h1.2
  have htake := List.prefix_iff_eq_take.mp hpre
  have hcl : csvColumns.length = 9 := rfl
  have hlen : header.length ≤ 9 := by
    have h2 := hpre.length_le
    rw [hcl] at h2
    exact h2
  have hlt : header.length < 9 := by
    rcases Nat.lt_or_ge header.length 9 with h2 | h2
    · exact h2
    · exfalso
      apply hne
      have h9 : header.length = 9 := Nat.le_antisymm hlen h2
      calc header = csvColumns.take header.length := htake
        _ = csvColumns.take 9 := by rw [h9]
        _ = csvColumns := by decide
  have key : ∀ n, n < 9 → "password" ∉ csvColumns.take n := by decide
  rw [htake]
  exact key _ hlt

/-! Claim theorems. -/

/-- C1: for a request `GET /uploads/{id}/{filename}` where a record with
that id exists in the store, the handler serves the file exactly when the
requester holds admin proof, or the record's stored password is empty
(passwords are compared after trimming whitespace, as the code does
throughout), or the id is in the session's unlock set — and the file
exists; in every other case the request is rejected with 403 Forbidden. -/
theorem uploads_access_gate (adminKey sessionKey sid filename : String)
    (rows : List Rec) (unlockedCards dirFiles : List String) (r : Rec)
    (hfind : findRow rows sid = some r) :
    (uploadsRoute adminKey sessionKey rows unlockedCards dirFiles sid filename
        = .file sid filename ↔
      (isAdmin adminKey sessionKey = true ∨ pyStrip (rget r "password") = "" ∨
        sid ∈ unlockedCards) ∧ filename ∈ dirFiles) ∧
    (uploadsRoute adminKey sessionKey rows unlockedCards dirFiles sid filename
        = .forbidden ↔
      ¬(isAdmin adminKey sessionKey = true ∨ pyStrip (rget r "password") = "" ∨
        sid ∈ unlockedCards)) := by
  unfold uploadsRoute sendFromDirectory
  cases hA : isAdmin adminKey sessionKey <;>
    by_cases hpw : pyStrip (rget r "password") = "" <;>
    by_cases hm : sid ∈ unlockedCards <;>
    by_cases hf : filename ∈ dirFiles <;>
    simp [hfind, hpw, hm, hf]

/-- Witness for C1: a locked listing, a visitor session that has not
unlocked it, no admin proof — the request is forbidden. -/
theorem uploads_access_gate_witness :
    uploadsRoute "" "" [[("id", "X1"), ("password", "abc")]] [] ["photo.jpg"]
      "X1" "photo.jpg" = .forbidden :=
  ((uploads_access_gate "" "" "X1" "photo.jpg"
      [[("id", "X1"), ("password", "abc")]] [] ["photo.jpg"]
      [("id", "X1"), ("password", "abc")] (by decide)).2).mpr (by decide)

/-- C9: when no record with the requested id exists in the store, the
uploads route performs no access check at all: it never answers 403, and
whenever a file with that name exists in the directory it is served to
any session. -/
theorem uploads_no_record_no_gate (adminKey sessionKey sid filename : String)
    (rows : List Rec) (unlockedCards dirFiles : List String)
    (hfind : findRow rows sid = none) :
    uploadsRoute adminKey sessionKey rows unlockedCards dirFiles sid filename
      ≠ .forbidden ∧
    (filename ∈ dirFiles →
      uploadsRoute adminKey sessionKey rows unlockedCards dirFiles sid filename
        = .file sid filename) := by
  unfold uploadsRoute sendFromDirectory
  cases hA : isAdmin adminKey sessionKey <;>
    by_cases hf : filename ∈ dirFiles <;> simp [hfind, hf]

/-- Witness for C9: a file under an id that has no record is served to a
session that never unlocked anything. -/
theorem uploads_no_record_no_gate_witness :
    uploadsRoute "" "" [[("id", "X1"), ("password", "abc")]] [] ["photo.jpg"]
      "X2" "photo.jpg" = .file "X2" "photo.jpg" :=
  (uploads_no_record_no_gate "" "" "X2" "photo.jpg"
      [[("id", "X1"), ("password", "abc")]] [] ["photo.jpg"] (by decide)).2
    (by decide)

/-- C8: unlocking is idempotent on the session's unlock set: when the
listing id is already present, every path of the unlock route that
reports success returns the unlock list unchanged (same size, same
elements — the very same list). -/
theorem unlock_idempotent (rows : List Rec) (sid password : String)
    (unlockedCards : List String) (hmem : sid ∈ unlockedCards) :
    ∀ l, unlockRoute rows sid password unlockedCards = .success l →
      l = unlockedCards := by
  intro l h
  unfold unlockRoute at h
  cases hfind : findRow rows sid with
  | none => simp [hfind] at h
  | some r =>
    simp only [hfind] at h
    by_cases hpw : pyStrip (rget r "password") = ""
    · simp [hpw] at h
      exact h.symm
    · by_cases hok :
        (pyStrip password != "" && pyStrip password == pyStrip (rget r "password")) = true
      · simp [hpw, hok, hmem] at h
        exact h.symm
      · simp [hpw, hok] at h

/-- Witness for C8: re-unlocking an already unlocked listing with the
correct password yields the unchanged session list. -/
theorem unlock_idempotent_witness : (["X1"] : List String) = ["X1"] :=
  unlock_idempotent [[("id", "X1"), ("password", "abc")]] "X1" "abc" ["X1"]
    (by decide) ["X1"] (by decide)

/-- C7: the header-migration step is idempotent: running
`_ensure_csv_header` a second time, on a file it has already migrated or
created, leaves the file content unchanged. -/
theorem ensure_header_idempotent (f : Option (List (List String))) :
    ensureCsvHeader (some (ensureCsvHeader f)) = ensureCsvHeader f := by
  cases f with
  | none => simp [ensureCsvHeader]
  | some rows =>
    cases rows with
    | nil => simp [ensureCsvHeader]
    | cons header body =>
      by_cases h1 : header = csvColumns
      · simp [ensureCsvHeader, h1]
      · by_cases h2 : "password" ∈ header
        · simp [ensureCsvHeader, h1, h2]
        · by_cases h3 : header ++ ["password"] = csvColumns
          · simp [ensureCsvHeader, h1, h2, h3]
          · simp [ensureCsvHeader, h1, h2, h3]

/-- C4 counterexample: the header `["id", "note"]` differs from the
expected column set in more ways than missing the newest column(s) — it
is no prefix of the canonical columns — yet `_ensure_csv_header` does not
leave the file untouched: it appends a `password` column and backfills. -/
theorem ensure_header_policy_counterexample :
    missingOnlyNewest ["id", "note"] = false ∧
    ["id", "note"] ≠ csvColumns ∧
    ensureCsvHeader (some [["id", "note"], ["A", "x"]]) =
      [["id", "note", "password"], ["A", "x", ""]] ∧
    [["id", "note", "password"], ["A", "x", ""]] ≠ [["id", "note"], ["A", "x"]] := by
  decide

/-- C4 amended: for an existing nonempty store file whose header is not
the expected column set, `_ensure_csv_header` appends a single `password`
column and backfills rows with the empty string exactly when the header
does not contain `password` (in particular whenever the header differs
from the expected set only by missing the newest column); any header
containing `password` is left untouched. -/
theorem ensure_header_policy (header : List String)
    (body : List (List String)) (hne : header ≠ csvColumns) :
    ("password" ∈ header →
      ensureCsvHeader (some (header :: body)) = header :: body) ∧
    ("password" ∉ header →
      ensureCsvHeader (some (header :: body)) =
        (header ++ ["password"]) :: body.map (fun r => r ++ [""])) ∧
    (missingOnlyNewest header = true →
      ensureCsvHeader (some (header :: body)) =
        (header ++ ["password"]) :: body.map (fun r => r ++ [""])) := by
  refine ⟨fun h => ?_, fun h => ?_, fun h => ?_⟩
  · simp [ensureCsvHeader, hne, h]
  · simp [ensureCsvHeader, hne, h]
  · have h2 := password_notin_proper_head header h
    simp [ensureCsvHeader, hne, h2]

/-- Witness for C4 amended: a header missing only the newest column
(`password`) is migrated with backfill. -/
theorem ensure_header_policy_witness :
    ensureCsvHeader (some [["id", "created_utc", "kind", "title",
        "price_tenge", "phone", "description", "photos"],
      ["A", "t", "sell", "T", "5", "7", "d", "p.jpg"]]) =
      [["id", "created_utc", "kind", "title", "price_tenge", "phone",
        "description", "photos", "password"],
       ["A", "t", "sell", "T", "5", "7", "d", "p.jpg", ""]] :=
  (ensure_header_policy
      ["id", "created_utc", "kind", "title", "price_tenge", "phone",
       "description", "photos"]
      [["A", "t", "sell", "T", "5", "7", "d", "p.jpg"]]
      (by decide)).2.2 (by decide)

/-- C5 counterexample: the public feed does not normalize `kind` to the
allowed enum: the unknown value `xyz` passes through unchanged instead of
being mapped to `material`. -/
theorem kind_default_counterexample :
    publicKind "xyz" = "xyz" ∧ ("xyz" : String) ≠ "material" ∧
    ("xyz" : String) ∉ ["material", "buy", "sell"] := by decide

/-- C5 amended: the public feed trims and lowercases `kind` and defaults
only a missing or empty value to `material`, passing unknown values
through without an enum check; the admin feed and the thanks page map
every value whose trimmed lowercase form is outside buy and sell —
including the allowed value `material` and any unknown value — to
`sell`, and the thanks page defaults to `sell` when the record is not
found. -/
theorem kind_default_by_call_site (k : String) :
    publicKind "" = "material" ∧
    (k ≠ "" → publicKind k = pyLower (pyStrip k)) ∧
    adminKind "" = "sell" ∧
    adminKind "material" = "sell" ∧
    (pyLower (pyStrip k) ≠ "buy" → pyLower (pyStrip k) ≠ "sell" →
      adminKind k = "sell") ∧
    ((pyLower (pyStrip k) = "buy" ∨ pyLower (pyStrip k) = "sell") →
      adminKind k = pyLower (pyStrip k)) ∧
    thanksKind false k = "sell" ∧
    thanksKind true k = adminKind k := by
  refine ⟨rfl, fun h => ?_, rfl, rfl, fun h1 h2 => ?_, fun h => ?_, rfl, rfl⟩
  · simp [publicKind, pyOr, h]
  · by_cases hk : k = ""
    · subst hk; rfl
    · simp [adminKind, pyOr, hk, h1, h2]
  · by_cases hk : k = ""
    · subst hk
      have h0 : pyLower (pyStrip "") = "" := rfl
      rw [h0] at h
      rcases h with h | h <;> exact absurd h (by decide)
    · rcases h with h | h <;> simp [adminKind, pyOr, hk, h]

/-- Witness for C5 amended: an unknown kind survives the public feed
untouched while the admin feed clamps it to sell. -/
theorem kind_default_by_call_site_witness :
    publicKind "Weird" = pyLower (pyStrip "Weird") ∧
    adminKind "Weird" = "sell" :=
  ⟨(kind_default_by_call_site "Weird").2.1 (by decide),
   (kind_default_by_call_site "Weird").2.2.2.2.1 (by decide) (by decide)⟩

/-- C6: writing any list of records with `_write_all_rows` and reading it
back with `_read_all_rows` yields exactly the records whose id has
non-whitespace content (ids are compared after trimming, as everywhere in
the code), each replaced by its projection onto the canonical columns;
on that projection every canonical field round-trips byte-for-byte, a
field missing from the record coming back as the empty string. -/
theorem write_read_roundtrip (rs : List Rec) :
    readAllRows (writeAllRows rs) =
      (rs.filter (fun r => pyStrip (rget r "id") != "")).map projectRec ∧
    ∀ r : Rec, ∀ c ∈ csvColumns, rget (projectRec r) c = rget r c :=
  ⟨readAll_writeAll_eq rs, fun r c hc => rget_projectRec r c hc⟩

/-- Witness for C6: a present field and a missing field of a concrete
record after the round-trip projection. -/
theorem write_read_roundtrip_witness :
    rget (projectRec [("id", "A1"), ("title", "T")]) "title" =
      rget [("id", "A1"), ("title", "T")] "title" ∧
    rget (projectRec [("id", "A1"), ("title", "T")]) "phone" =
      rget [("id", "A1"), ("title", "T")] "phone" :=
  ⟨(write_read_roundtrip [[("id", "A1"), ("title", "T")]]).2
      [("id", "A1"), ("title", "T")] "title" (by decide),
   (write_read_roundtrip [[("id", "A1"), ("title", "T")]]).2
      [("id", "A1"), ("title", "T")] "phone" (by decide)⟩

/-- C10: `_write_all_rows` projects every record onto the fixed canonical
column set: each record surviving a write/read round trip has exactly the
canonical columns as its keys, so any key outside them is absent — its
lookup fails and its value reads back as the empty string. -/
theorem writeAll_discards_extra_keys (rs : List Rec) (r2 : Rec)
    (hmem : r2 ∈ readAllRows (writeAllRows rs)) :
    r2.map Prod.fst = csvColumns ∧
    ∀ k, k ∉ csvColumns →
      r2.find? (fun p => p.1 == k) = none ∧ rget r2 k = "" := by
  rw [readAll_writeAll_eq] at hmem
  rcases List.mem_map.mp hmem with ⟨r, hr, rfl⟩
  refine ⟨keys_projectRec r, fun k hk => ?_⟩
  have hnone : (projectRec r).find? (fun p => p.1 == k) = none := by
    have h0 := find?_map_pair_none csvColumns (fun a => rget r a) k hk
    simpa [projectRec] using h0
  refine ⟨hnone, ?_⟩
  unfold rget
  rw [hnone]

/-- Witness for C10: the extra key of a concrete record is gone after the
round trip. -/
theorem writeAll_discards_extra_keys_witness :
    (projectRec [("id", "A1"), ("extra", "v")]).find?
        (fun p => p.1 == "extra") = none ∧
    rget (projectRec [("id", "A1"), ("extra", "v")]) "extra" = "" :=
  (writeAll_discards_extra_keys [[("id", "A1"), ("extra", "v")]]
      (projectRec [("id", "A1"), ("extra", "v")]) (by decide)).2
    "extra" (by decide)

/-- Six uploaded files with the default configuration in mind: one more
file than `MAX_FILES`, the last one above the per-file cap. -/
def sixFiles : List UploadFile :=
  [⟨"a.jpg", 1⟩, ⟨"b.jpg", 1⟩, ⟨"c.jpg", 1⟩, ⟨"d.jpg", 1⟩, ⟨"e.jpg", 1⟩,
   ⟨"f.jpg", 11534336⟩]

/-- C2 counterexample: a submission of six files — exceeding the
`MAX_FILES` cap, one file also exceeding the `MAX_FILE_MB` cap — is not
rejected: with a content length of 12 MiB (within the total cap) the
handler saves all six files, so data is persisted. -/
theorem upload_caps_counterexample :
    MAX_FILES < sixFiles.length ∧
    (∃ f ∈ sixFiles, MAX_FILE_MB * 1024 * 1024 < f.size) ∧
    processAdminUpload 12582912 sixFiles = .saved 6 := by decide

/-- C2 amended: only the total request size cap is enforced, by the
framework before the handler runs; `MAX_FILES` and `MAX_FILE_MB` are read
from configuration but never checked, so within the total cap the handler
saves every file with a nonempty filename even when the submission has
more than `MAX_FILES` files and contains a file above `MAX_FILE_MB`, and
only a content length above the total cap rejects the request wholesale
before any save. -/
theorem upload_caps_only_total (contentLength : Nat)
    (files : List UploadFile)
    (hcl : contentLength ≤ MAX_TOTAL_MB * 1024 * 1024)
    (hcount : MAX_FILES < (validFiles files).length)
    (hbig : ∃ f ∈ validFiles files, MAX_FILE_MB * 1024 * 1024 < f.size) :
    processAdminUpload contentLength files =
      .saved (validFiles files).length ∧
    (∀ cl2, MAX_TOTAL_MB * 1024 * 1024 < cl2 →
      processAdminUpload cl2 files = .rejectedTooLarge) := by
  constructor
  · have h1 : ¬ (contentLength > MAX_TOTAL_MB * 1024 * 1024) :=
      Nat.not_lt.mpr hcl
    have h2 : (validFiles files).isEmpty = false := by
      cases hv : validFiles files with
      | nil => rw [hv] at hcount; simp at hcount
      | cons a l => rfl
    simp [processAdminUpload, h1, h2]
  · intro cl2 h
    simp [processAdminUpload, h]

/-- Witness for C2 amended: the six-file submission within the total cap
is saved in full. -/
theorem upload_caps_only_total_witness :
    processAdminUpload 12582912 sixFiles =
      .saved (validFiles sixFiles).length :=
  (upload_caps_only_total 12582912 sixFiles (by decide) (by decide)
      (by decide)).1

/-- C3: the path check of `admin_photo_delete` is a plain string-prefix
test on the resolved paths, which the filename `../X1evil/photo.jpg`
passes for listing `X1` because `/srv/uploads/X1evil/photo.jpg` starts
with the string `/srv/uploads/X1`: the handler then unlinks a file that
is not strictly inside the listing's own directory instead of rejecting
the request with 400. -/
theorem photo_delete_escapes_listing_dir :
    photoDeletePathOk ["srv", "uploads"] "X1" ["..", "X1evil", "photo.jpg"]
      = true ∧
    resolveComps (["srv", "uploads"] ++ ["X1"] ++
        ["..", "X1evil", "photo.jpg"]) =
      ["srv", "uploads", "X1evil", "photo.jpg"] ∧
    strictlyInside (resolveComps (["srv", "uploads"] ++ ["X1"]))
      ["srv", "uploads", "X1evil", "photo.jpg"] = false ∧
    adminPhotoDelete ["srv", "uploads"] "X1" ["..", "X1evil", "photo.jpg"]
      [["srv", "uploads", "X1evil", "photo.jpg"]] =
      .deleted ["srv", "uploads", "X1evil", "photo.jpg"] := by decide

end NrKitap
